import Mathlib

/-!
A shallow embedding, in Lean 4, of the computational core of the pysolorie
library (solar geometry, Hottel clear-sky transmittance, atmospheric
attenuation, and the direct-irradiation integrator), together with theorems
settling a list of claims about that code.

Modelling conventions:
* Python floats are modelled as real numbers.
* A Python function that can raise is modelled as a value in
  Except PyError.  Raising an exception is returning Except.error;
  returning normally is Except.ok.
* Day-of-year is an integer, cast to a real inside the trigonometric
  formulas exactly where the Python code mixes ints into float arithmetic.
-/

/-- The Python exceptions that the modelled code can raise.
valueError models ValueError with its message string (math.acos raises
ValueError with message "math domain error" outside its domain, and
model.py raises ValueError with message "Invalid climate type");
attributeError models AttributeError, carrying the missing attribute name;
missingObserverLatitudeError models the MissingObserverLatitudeError class
of exceptions.py (a ValueError subclass with a fixed message). -/
inductive PyError where
  | valueError (message : String)
  | attributeError (attribute_name : String)
  | missingObserverLatitudeError

/-- math.radians: degrees to radians. -/
noncomputable def radians (degrees : ℝ) : ℝ := degrees * Real.pi / 180

/-- math.acos: returns the arc cosine on [-1, 1]; outside that interval
Python raises ValueError with message "math domain error". -/
noncomputable def acosE (x : ℝ) : Except PyError ℝ :=
  if |x| ≤ 1 then .ok (Real.arccos x) else .error (.valueError ("math domain error"))

/-- sun_position.py, SunPosition.solar_declination:
sin((2 * pi) * (284 + day_of_year) / 365) * radians(23.45). -/
noncomputable def SunPosition.solar_declination (day_of_year : ℤ) : ℝ :=
  Real.sin (2 * Real.pi * (284 + (day_of_year : ℝ)) / 365) * radians 23.45

/-- sun_position.py, SunPosition.hour_angle:
(solar_time - seconds_in_half_day) * (pi / seconds_in_half_day),
with seconds_in_half_day = 12 * 60 * 60. -/
noncomputable def SunPosition.hour_angle (solar_time : ℝ) : ℝ :=
  (solar_time - 12 * 60 * 60) * (Real.pi / (12 * 60 * 60))

/-- sun_position.py, SunPosition.solar_time:
hour_angle / (pi / seconds_in_half_day) + seconds_in_half_day. -/
noncomputable def SunPosition.solar_time (hour_angle : ℝ) : ℝ :=
  hour_angle / (Real.pi / (12 * 60 * 60)) + 12 * 60 * 60

/-- observer.py, class Observer.  The latitude and longitude properties
store radians (the setters convert from degrees); None is modelled by
Option.none.  The sun_position field of the Python class is a stateless
method holder and needs no state here. -/
structure Observer where
  observer_latitude : Option ℝ
  observer_longitude : Option ℝ

/-- observer.py, Observer.__init__(observer_latitude, observer_longitude):
the property setters convert each provided degree value to radians and
leave None unchanged. -/
noncomputable def Observer.new (observer_latitude observer_longitude : Option ℝ) : Observer :=
  ⟨observer_latitude.map radians, observer_longitude.map radians⟩

/-- The argument handed to math.acos inside Observer.calculate_zenith_angle:
sin(latitude) * sin(declination) + cos(latitude) * cos(declination) * cos(hour_angle). -/
noncomputable def zenith_cos_arg (observer_latitude : ℝ) (day_of_year : ℤ) (solar_time : ℝ) : ℝ :=
  Real.sin observer_latitude * Real.sin (SunPosition.solar_declination day_of_year) +
    Real.cos observer_latitude * Real.cos (SunPosition.solar_declination day_of_year) *
      Real.cos (SunPosition.hour_angle solar_time)

/-- observer.py, Observer.calculate_zenith_angle: raises
MissingObserverLatitudeError when the latitude is unset
(via _ensure_latitude_provided), otherwise returns
acos(sin(phi) * sin(delta) + cos(phi) * cos(delta) * cos(omega)). -/
noncomputable def Observer.calculate_zenith_angle (o : Observer) (day_of_year : ℤ)
    (solar_time : ℝ) : Except PyError ℝ :=
  match o.observer_latitude with
  | none => .error .missingObserverLatitudeError
  | some observer_latitude => acosE (zenith_cos_arg observer_latitude day_of_year solar_time)

/-- observer.py, Observer.calculate_sunrise_sunset: raises
MissingObserverLatitudeError when the latitude is unset, otherwise computes
hour_angle = acos(-tan(latitude) * tan(declination)) — with no clamping and
no polar-day or polar-night branch, so the acos domain error propagates —
and returns (sunrise, sunset) = (-hour_angle, hour_angle). -/
noncomputable def Observer.calculate_sunrise_sunset (o : Observer) (day_of_year : ℤ) :
    Except PyError (ℝ × ℝ) :=
  match o.observer_latitude with
  | none => .error .missingObserverLatitudeError
  | some observer_latitude =>
    match acosE (-(Real.tan observer_latitude *
        Real.tan (SunPosition.solar_declination day_of_year))) with
    | .error e => .error e
    | .ok hour_angle => .ok (-hour_angle, hour_angle)

/-- model.py, HottelModel._convert_to_km: observer_altitude / 1000.0. -/
noncomputable def HottelModel.convert_to_km (observer_altitude : ℝ) : ℝ :=
  observer_altitude / 1000

/-- model.py, HottelModel._calculate_a0_star:
0.4237 - 0.00821 * (6.0 - altitude_km) ** 2. -/
noncomputable def HottelModel.calculate_a0_star (observer_altitude : ℝ) : ℝ :=
  0.4237 - 0.00821 * (6.0 - HottelModel.convert_to_km observer_altitude) ^ 2

/-- model.py, HottelModel._calculate_a1_star:
0.5055 + 0.00595 * (6.5 - altitude_km) ** 2. -/
noncomputable def HottelModel.calculate_a1_star (observer_altitude : ℝ) : ℝ :=
  0.5055 + 0.00595 * (6.5 - HottelModel.convert_to_km observer_altitude) ^ 2

/-- model.py, HottelModel._calculate_k_star:
0.2711 + 0.01858 * (2.5 - altitude_km) ** 2. -/
noncomputable def HottelModel.calculate_k_star (observer_altitude : ℝ) : ℝ :=
  0.2711 + 0.01858 * (2.5 - HottelModel.convert_to_km observer_altitude) ^ 2

/-- model.py, the CLIMATE_CONSTANTS dictionary defined inside
HottelModel.calculate_transmittance_components, mapping a climate type to
its correction factors (r0, r1, rk). -/
def HottelModel.CLIMATE_CONSTANTS : List (String × (ℝ × ℝ × ℝ)) :=
  [("TROPICAL", (0.95, 0.98, 1.02)),
   ("MIDLATITUDE SUMMER", (0.97, 0.99, 1.02)),
   ("SUBARCTIC SUMMER", (0.99, 0.99, 1.01)),
   ("MIDLATITUDE WINTER", (1.03, 1.01, 1.00))]

/-- exceptions.py, the VALID_CLIMATE_TYPES list of InvalidClimateTypeError
(the four recognized climate categories). -/
def VALID_CLIMATE_TYPES : List String :=
  ["TROPICAL", "MIDLATITUDE SUMMER", "SUBARCTIC SUMMER", "MIDLATITUDE WINTER"]

/-- Python str.upper for the ASCII climate strings involved here: uppercase
every character of the string. -/
def pyUpper (s : String) : String := String.mk (s.data.map Char.toUpper)

/-- model.py, HottelModel.calculate_transmittance_components: raises
ValueError with message "Invalid climate type" when
climate_type.upper() is not a key of CLIMATE_CONSTANTS; otherwise returns
(r0 * a0_star, r1 * a1_star, rk * k_star). -/
noncomputable def HottelModel.calculate_transmittance_components (climate_type : String)
    (observer_altitude : ℝ) : Except PyError (ℝ × ℝ × ℝ) :=
  match HottelModel.CLIMATE_CONSTANTS.lookup (pyUpper climate_type) with
  | none => .error (.valueError ("Invalid climate type"))
  | some (r0, r1, rk) =>
    .ok (r0 * HottelModel.calculate_a0_star observer_altitude,
         r1 * HottelModel.calculate_a1_star observer_altitude,
         rk * HottelModel.calculate_k_star observer_altitude)

/-- The needle occurs as a contiguous substring of the haystack.  Used to
express that an error message mentions a given climate name. -/
def mentions (needle haystack : String) : Prop :=
  needle.toList <:+: haystack.toList

/-- irradiance.py, SolarIrradiance.calculate_extraterrestrial_irradiance:
SOLAR_CONSTANT * (1 + 0.033 * cos(2 * pi * day_of_year / 365)) with
SOLAR_CONSTANT = 1367 * 1e-6. -/
noncomputable def SolarIrradiance.calculate_extraterrestrial_irradiance (day_of_year : ℤ) : ℝ :=
  (1367 * 1e-6) * (1 + 0.033 * Real.cos (2 * Real.pi * (day_of_year : ℝ) / 365))

/-- atmospheric_transmission.py, class AtmosphericTransmission: caches
the three transmittance components a0, a1, k unpacked in __init__, plus
the Observer it builds. -/
structure AtmosphericTransmission where
  a0 : ℝ
  a1 : ℝ
  k : ℝ
  observer : Observer

/-- atmospheric_transmission.py, AtmosphericTransmission.__init__: unpacks
HottelModel().calculate_transmittance_components(climate_type,
observer_altitude) — whose ValueError propagates — into a0, a1, k, and sets
observer = Observer(observer_latitude) (longitude left None). -/
noncomputable def AtmosphericTransmission.init (climate_type : String)
    (observer_altitude observer_latitude : ℝ) : Except PyError AtmosphericTransmission :=
  match HottelModel.calculate_transmittance_components climate_type observer_altitude with
  | .error e => .error e
  | .ok (a0, a1, k) => .ok ⟨a0, a1, k, Observer.new (some observer_latitude) none⟩

/-- atmospheric_transmission.py, AtmosphericTransmission.calculate_transmittance:
computes the zenith angle (exceptions propagate), takes its cosine, and with
EPSILON = 1e-8 returns a0 when the absolute cosine is below EPSILON, else
a0 + a1 * exp(-k / cos_zenith_angle). -/
noncomputable def AtmosphericTransmission.calculate_transmittance
    (atm : AtmosphericTransmission) (day_of_year : ℤ) (solar_time : ℝ) : Except PyError ℝ :=
  match atm.observer.calculate_zenith_angle day_of_year solar_time with
  | .error e => .error e
  | .ok zenith_angle =>
    .ok (if |Real.cos zenith_angle| < 1e-8 then atm.a0
         else atm.a0 + atm.a1 * Real.exp (-atm.k / Real.cos zenith_angle))

/-- numerical_integration.py, line 89: the expression
self._observer._validate_latitude().  The Observer class of observer.py
defines only __init__, calculate_zenith_angle, calculate_sunrise_sunset,
_ensure_latitude_provided and the observer_latitude and observer_longitude
properties; it has no attribute named _validate_latitude, so in Python this
attribute lookup raises AttributeError before any latitude check can run. -/
def Observer.validate_latitude_lookup (_o : Observer) : Except PyError ℝ :=
  .error (.attributeError ("_validate_latitude"))

/-- numerical_integration.py, class IrradiationCalculator: holds the
Observer and the AtmosphericTransmission built in __init__ (the
SunPosition and SolarIrradiance fields are stateless method holders). -/
structure IrradiationCalculator where
  observer : Observer
  atmospheric_transmission : AtmosphericTransmission

/-- numerical_integration.py, IrradiationCalculator.OMEGA = 7.15 * 1e-5. -/
noncomputable def IrradiationCalculator.OMEGA : ℝ := 7.15 * 1e-5

/-- numerical_integration.py, IrradiationCalculator.__init__: builds
Observer(observer_latitude=observer_latitude) and
AtmosphericTransmission(climate_type, observer_altitude, observer_latitude);
the invalid-climate ValueError of the latter propagates. -/
noncomputable def IrradiationCalculator.init (climate_type : String)
    (observer_altitude observer_latitude : ℝ) : Except PyError IrradiationCalculator :=
  match AtmosphericTransmission.init climate_type observer_altitude observer_latitude with
  | .error e => .error e
  | .ok atm => .ok ⟨Observer.new (some observer_latitude) none, atm⟩

/-- numerical_integration.py, IrradiationCalculator._heaviside:
1 if x >= 0 else 0 (an int in Python, used as a multiplicative factor). -/
noncomputable def IrradiationCalculator.heaviside (x : ℝ) : ℝ :=
  if x ≥ 0 then 1 else 0

/-- The cos_theta expression of
IrradiationCalculator._calculate_irradiance_component:
sin(declination) * sin(latitude - panel) + cos(declination) * cos(hour_angle) * cos(latitude - panel). -/
noncomputable def cos_theta (solar_declination observer_latitude panel_orientation
    hour_angle : ℝ) : ℝ :=
  Real.sin solar_declination * Real.sin (observer_latitude - panel_orientation) +
    Real.cos solar_declination * Real.cos hour_angle *
      Real.cos (observer_latitude - panel_orientation)

/-- numerical_integration.py, IrradiationCalculator._calculate_irradiance_component:
first evaluates self._observer._validate_latitude() (see
Observer.validate_latitude_lookup), then cos_theta, the transmittance at
solar_time(hour_angle), the extraterrestrial irradiance, and returns
irradiance * transmittance * cos_theta * heaviside(cos_theta) / OMEGA.
Any exception raised along the way propagates. -/
noncomputable def IrradiationCalculator.calculate_irradiance_component
    (ic : IrradiationCalculator) (hour_angle panel_orientation : ℝ) (day_of_year : ℤ) :
    Except PyError ℝ :=
  match ic.observer.validate_latitude_lookup with
  | .error e => .error e
  | .ok observer_latitude =>
    match ic.atmospheric_transmission.calculate_transmittance day_of_year
        (SunPosition.solar_time hour_angle) with
    | .error e => .error e
    | .ok transmittance =>
      .ok (SolarIrradiance.calculate_extraterrestrial_irradiance day_of_year *
        transmittance *
        cos_theta (SunPosition.solar_declination day_of_year) observer_latitude
          panel_orientation hour_angle *
        IrradiationCalculator.heaviside
          (cos_theta (SunPosition.solar_declination day_of_year) observer_latitude
            panel_orientation hour_angle) /
        IrradiationCalculator.OMEGA)

/-- numpy.arange(start, stop, step) for a positive step: the samples
start + j * step for 0 <= j < ceil((stop - start) / step), a half-open
sampling of [start, stop). -/
noncomputable def arange (start stop step : ℝ) : List ℝ :=
  (List.range (⌈(stop - start) / step⌉.toNat)).map (fun j : ℕ => start + (j : ℝ) * step)

/-- The evaluation of a Python list comprehension [f(x) for x in xs] whose
body can raise: elements are evaluated left to right and the first raised
exception propagates. -/
def mapExcept (f : ℝ → Except PyError ℝ) : List ℝ → Except PyError (List ℝ)
  | [] => .ok []
  | x :: xs =>
    match f x with
    | .error e => .error e
    | .ok y =>
      match mapExcept f xs with
      | .error e => .error e
      | .ok ys => .ok (y :: ys)

/-- scipy.integrate.simpson on equally spaced samples with spacing dx:
the composite Simpson rule over consecutive pairs of intervals; a final
unpaired interval (even sample count) is closed with the trapezoid rule.
No claim settled below depends on the value computed here, only on whether
the surrounding code raises before reaching the integration. -/
noncomputable def simpson (samples : List ℝ) (dx : ℝ) : ℝ :=
  match samples with
  | y0 :: y1 :: y2 :: rest => dx / 3 * (y0 + 4 * y1 + y2) + simpson (y2 :: rest) dx
  | [y0, y1] => dx * (y0 + y1) / 2
  | _ => 0
termination_by samples.length
decreasing_by simp

/-- numerical_integration.py, IrradiationCalculator.calculate_direct_irradiation:
computes the sunrise and sunset hour angles (exceptions propagate), converts
the panel orientation from degrees to radians, evaluates the irradiance
component at every hour angle in numpy.arange(sunrise, sunset, 0.01)
(the first exception raised by a component propagates), and applies
scipy.integrate.simpson with dx = 0.01. -/
noncomputable def IrradiationCalculator.calculate_direct_irradiation
    (ic : IrradiationCalculator) (panel_orientation : ℝ) (day_of_year : ℤ) :
    Except PyError ℝ :=
  match ic.observer.calculate_sunrise_sunset day_of_year with
  | .error e => .error e
  | .ok (sunrise_hour_angle, sunset_hour_angle) =>
    match mapExcept
        (fun hour_angle =>
          ic.calculate_irradiance_component hour_angle (radians panel_orientation)
            day_of_year)
        (arange sunrise_hour_angle sunset_hour_angle 0.01) with
    | .error e => .error e
    | .ok irradiance_components => .ok (simpson irradiance_components 0.01)

/-- The transmittance components the Hottel model produces for climate
TROPICAL at altitude 26 m (the attenuation state of the worked scenario). -/
noncomputable def atmTropical : AtmosphericTransmission :=
  ⟨0.95 * HottelModel.calculate_a0_star 26,
   0.98 * HottelModel.calculate_a1_star 26,
   1.02 * HottelModel.calculate_k_star 26,
   Observer.new (some 0) none⟩

/-- The IrradiationCalculator built by
IrradiationCalculator(climate_type=TROPICAL, observer_altitude=26,
observer_latitude=0). -/
noncomputable def icTropical : IrradiationCalculator :=
  ⟨Observer.new (some 0) none, atmTropical⟩



/-! Helper lemmas shared by several of the claim theorems below. -/

/-- The acos argument of the zenith-angle formula is a Cauchy-Schwarz-style
combination of sines and cosines and always lies in [-1, 1]. -/
theorem abs_zenith_cos_arg_le_one (observer_latitude : ℝ) (day_of_year : ℤ)
    (solar_time : ℝ) : |zenith_cos_arg observer_latitude day_of_year solar_time| ≤ 1 := by
  unfold zenith_cos_arg
  set s1 := Real.sin observer_latitude with hs1
  set c1 := Real.cos observer_latitude with hc1
  set s2 := Real.sin (SunPosition.solar_declination day_of_year) with hs2
  set c2 := Real.cos (SunPosition.solar_declination day_of_year) with hc2
  set w := Real.cos (SunPosition.hour_angle solar_time) with hw
  have h1 : s1 ^ 2 + c1 ^ 2 = 1 := Real.sin_sq_add_cos_sq observer_latitude
  have h2 : s2 ^ 2 + c2 ^ 2 = 1 := Real.sin_sq_add_cos_sq _
  have hw1 : -1 ≤ w := Real.neg_one_le_cos _
  have hw2 : w ≤ 1 := Real.cos_le_one _
  have hw3 : w ^ 2 ≤ 1 := by nlinarith
  have hc2w : c2 ^ 2 * w ^ 2 ≤ c2 ^ 2 := by nlinarith [sq_nonneg c2]
  have key : (s1 * s2 + c1 * c2 * w) ^ 2 + (s1 * c2 * w - c1 * s2) ^ 2 =
      (s1 ^ 2 + c1 ^ 2) * (s2 ^ 2 + c2 ^ 2 * w ^ 2) := by ring
  rw [h1, one_mul] at key
  have hsq : (s1 * s2 + c1 * c2 * w) ^ 2 ≤ 1 := by
    nlinarith [sq_nonneg (s1 * c2 * w - c1 * s2)]
  rw [abs_le]
  constructor
  · nlinarith [sq_nonneg (s1 * s2 + c1 * c2 * w + 1)]
  · nlinarith [sq_nonneg (s1 * s2 + c1 * c2 * w - 1)]

/-- With a provided latitude the zenith-angle computation never raises: it
returns the arc cosine of the in-range acos argument. -/
theorem calculate_zenith_angle_of_latitude (o : Observer) (observer_latitude : ℝ)
    (h : o.observer_latitude = some observer_latitude) (day_of_year : ℤ) (solar_time : ℝ) :
    o.calculate_zenith_angle day_of_year solar_time =
      .ok (Real.arccos (zenith_cos_arg observer_latitude day_of_year solar_time)) := by
  obtain ⟨lat, lon⟩ := o
  have h2 : lat = some observer_latitude := h
  subst h2
  show acosE (zenith_cos_arg observer_latitude day_of_year solar_time) = _
  unfold acosE
  rw [if_pos (abs_zenith_cos_arg_le_one observer_latitude day_of_year solar_time)]

/-- At latitude 0 degrees the sunrise and sunset computation succeeds on
day 81 and returns the equinox-style window (-pi/2, pi/2): the acos
argument is -tan(0) * tan(declination) = 0. -/
theorem sunrise_sunset_lat0_day81 :
    (Observer.new (some 0) none).calculate_sunrise_sunset 81 =
      .ok (-(Real.pi / 2), Real.pi / 2) := by
  have hred : (Observer.new (some 0) none).calculate_sunrise_sunset 81 =
      (match acosE (-(Real.tan (radians 0) *
          Real.tan (SunPosition.solar_declination 81))) with
       | .error e => .error e
       | .ok hour_angle => .ok (-hour_angle, hour_angle)) := rfl
  have harg : -(Real.tan (radians 0) * Real.tan (SunPosition.solar_declination 81)) = 0 := by
    have h0 : radians 0 = 0 := by unfold radians; ring
    rw [h0, Real.tan_zero]
    ring
  have hac : acosE (-(Real.tan (radians 0) *
      Real.tan (SunPosition.solar_declination 81))) = .ok (Real.pi / 2) := by
    rw [harg]
    unfold acosE
    rw [if_pos (by norm_num), Real.arccos_zero]
  rw [hred, hac]

/-- If every element of a nonempty list makes the body raise the same
exception, the whole list comprehension raises it. -/
theorem mapExcept_error_of_all (f : ℝ → Except PyError ℝ) (e : PyError)
    (hf : ∀ x, f x = .error e) (l : List ℝ) (hl : l ≠ []) :
    mapExcept f l = .error e := by
  cases l with
  | nil => exact absurd rfl hl
  | cons x xs =>
    unfold mapExcept
    rw [hf x]

/-- The climate lookup fails exactly on strings outside the four recognized
keys. -/
theorem climate_lookup_eq_none_iff (s : String) :
    HottelModel.CLIMATE_CONSTANTS.lookup s = none ↔ s ∉ VALID_CLIMATE_TYPES := by
  by_cases h1 : s = "TROPICAL"
  · subst h1
    show some ((0.95 : ℝ), (0.98 : ℝ), (1.02 : ℝ)) = none ↔ _
    simp [VALID_CLIMATE_TYPES]
  by_cases h2 : s = "MIDLATITUDE SUMMER"
  · subst h2
    show some ((0.97 : ℝ), (0.99 : ℝ), (1.02 : ℝ)) = none ↔ _
    simp [VALID_CLIMATE_TYPES]
  by_cases h3 : s = "SUBARCTIC SUMMER"
  · subst h3
    show some ((0.99 : ℝ), (0.99 : ℝ), (1.01 : ℝ)) = none ↔ _
    simp [VALID_CLIMATE_TYPES]
  by_cases h4 : s = "MIDLATITUDE WINTER"
  · subst h4
    show some ((1.03 : ℝ), (1.01 : ℝ), (1.00 : ℝ)) = none ↔ _
    simp [VALID_CLIMATE_TYPES]
  have e1 : (s == "TROPICAL") = false := beq_eq_false_iff_ne.mpr h1
  have e2 : (s == "MIDLATITUDE SUMMER") = false := beq_eq_false_iff_ne.mpr h2
  have e3 : (s == "SUBARCTIC SUMMER") = false := beq_eq_false_iff_ne.mpr h3
  have e4 : (s == "MIDLATITUDE WINTER") = false := beq_eq_false_iff_ne.mpr h4
  simp [HottelModel.CLIMATE_CONSTANTS, List.lookup, e1, e2, e3, e4,
    VALID_CLIMATE_TYPES, h1, h2, h3, h4]

/-! The claim theorems. -/

/-- C6: hour_angle and solar_time are exact inverses: in the real-number
model, solar_time(hour_angle(t)) = t for every solar time t, and
hour_angle(solar_time(h)) = h for every hour angle h (exact equality, so
in particular within the 1e-3 tolerance of the claim). -/
theorem c6_hour_angle_solar_time_inverse (t h : ℝ) :
    SunPosition.solar_time (SunPosition.hour_angle t) = t ∧
    SunPosition.hour_angle (SunPosition.solar_time h) = h ∧
    |SunPosition.hour_angle (SunPosition.solar_time h) - h| ≤ 1e-3 := by
  have h1 : SunPosition.solar_time (SunPosition.hour_angle t) = t := by
    unfold SunPosition.solar_time SunPosition.hour_angle
    field_simp
  have h2 : SunPosition.hour_angle (SunPosition.solar_time h) = h := by
    unfold SunPosition.solar_time SunPosition.hour_angle
    field_simp
    ring
  refine ⟨h1, h2, ?_⟩
  rw [h2]
  norm_num

/-- C9: the transmittance components for climate TROPICAL at altitude 26 m
are (r0 * a0_star, r1 * a1_star, rk * k_star) with (r0, r1, rk) =
(0.95, 0.98, 1.02), and each component is within 1e-3 of the reference
triple (0.124, 0.739, 0.392). -/
theorem c9_tropical_transmittance_components_values :
    ∃ t : ℝ × ℝ × ℝ,
      HottelModel.calculate_transmittance_components ("TROPICAL") 26 = .ok t ∧
      t = (0.95 * HottelModel.calculate_a0_star 26,
           0.98 * HottelModel.calculate_a1_star 26,
           1.02 * HottelModel.calculate_k_star 26) ∧
      |t.1 - 0.124| ≤ 1e-3 ∧ |t.2.1 - 0.739| ≤ 1e-3 ∧ |t.2.2 - 0.392| ≤ 1e-3 := by
  refine ⟨(0.95 * HottelModel.calculate_a0_star 26,
           0.98 * HottelModel.calculate_a1_star 26,
           1.02 * HottelModel.calculate_k_star 26), rfl, rfl, ?_, ?_, ?_⟩ <;>
    unfold HottelModel.calculate_a0_star HottelModel.calculate_a1_star
      HottelModel.calculate_k_star HottelModel.convert_to_km <;>
    rw [abs_le] <;> constructor <;> norm_num

/-- C10: for every observer with a provided latitude, every day of year and
every solar time, the acos argument of calculate_zenith_angle lies in
[-1, 1], so the computation returns (no math domain error is possible) and
the returned zenith angle lies in [0, pi]. -/
theorem c10_zenith_acos_arg_in_range (o : Observer) (observer_latitude : ℝ)
    (h : o.observer_latitude = some observer_latitude) (day_of_year : ℤ) (solar_time : ℝ) :
    |zenith_cos_arg observer_latitude day_of_year solar_time| ≤ 1 ∧
    o.calculate_zenith_angle day_of_year solar_time =
      .ok (Real.arccos (zenith_cos_arg observer_latitude day_of_year solar_time)) ∧
    0 ≤ Real.arccos (zenith_cos_arg observer_latitude day_of_year solar_time) ∧
    Real.arccos (zenith_cos_arg observer_latitude day_of_year solar_time) ≤ Real.pi :=
  ⟨abs_zenith_cos_arg_le_one observer_latitude day_of_year solar_time,
   calculate_zenith_angle_of_latitude o observer_latitude h day_of_year solar_time,
   Real.arccos_nonneg _, Real.arccos_le_pi _⟩

/-- Witness for C10 at the concrete observer with stored latitude 0.5 rad,
day 81, solar time 0. -/
theorem c10_zenith_acos_arg_in_range_witness :
    |zenith_cos_arg 0.5 81 0| ≤ 1 ∧
    (Observer.mk (some 0.5) none).calculate_zenith_angle 81 0 =
      .ok (Real.arccos (zenith_cos_arg 0.5 81 0)) ∧
    0 ≤ Real.arccos (zenith_cos_arg 0.5 81 0) ∧
    Real.arccos (zenith_cos_arg 0.5 81 0) ≤ Real.pi :=
  c10_zenith_acos_arg_in_range (Observer.mk (some 0.5) none) 0.5 rfl 81 0

/-- C8: calculate_zenith_angle and calculate_sunrise_sunset raise
MissingObserverLatitudeError exactly when the stored latitude is None; a
latitude of 0.0 degrees counts as provided, so the observer built from
0.0 degrees never raises that error. -/
theorem c8_missing_latitude_iff (o : Observer) (day_of_year : ℤ) (solar_time : ℝ) :
    (o.calculate_zenith_angle day_of_year solar_time =
        .error .missingObserverLatitudeError ↔ o.observer_latitude = none) ∧
    (o.calculate_sunrise_sunset day_of_year =
        .error .missingObserverLatitudeError ↔ o.observer_latitude = none) ∧
    (Observer.new (some 0) none).observer_latitude ≠ none ∧
    (Observer.new (some 0) none).calculate_zenith_angle day_of_year solar_time ≠
      .error .missingObserverLatitudeError ∧
    (Observer.new (some 0) none).calculate_sunrise_sunset day_of_year ≠
      .error .missingObserverLatitudeError := by
  have hz : ∀ (o' : Observer), o'.calculate_zenith_angle day_of_year solar_time =
      .error .missingObserverLatitudeError ↔ o'.observer_latitude = none := by
    intro o'
    obtain ⟨lat, lon⟩ := o'
    cases lat with
    | none => simp [Observer.calculate_zenith_angle]
    | some observer_latitude =>
      show acosE (zenith_cos_arg observer_latitude day_of_year solar_time) =
          .error .missingObserverLatitudeError ↔ some observer_latitude = none
      unfold acosE
      split_ifs <;> simp
  have hs : ∀ (o' : Observer), o'.calculate_sunrise_sunset day_of_year =
      .error .missingObserverLatitudeError ↔ o'.observer_latitude = none := by
    intro o'
    obtain ⟨lat, lon⟩ := o'
    cases lat with
    | none => simp [Observer.calculate_sunrise_sunset]
    | some observer_latitude =>
      show (match acosE (-(Real.tan observer_latitude *
            Real.tan (SunPosition.solar_declination day_of_year))) with
          | Except.error e => (Except.error e : Except PyError (ℝ × ℝ))
          | Except.ok hour_angle => Except.ok (-hour_angle, hour_angle)) =
          Except.error PyError.missingObserverLatitudeError ↔
          some observer_latitude = none
      unfold acosE
      split_ifs <;> simp
  have hlat0 : (Observer.new (some 0) none).observer_latitude ≠ none := by
    show some (radians 0) ≠ none
    simp
  refine ⟨hz o, hs o, hlat0, ?_, ?_⟩
  · intro hcon
    exact hlat0 ((hz (Observer.new (some 0) none)).mp hcon)
  · intro hcon
    exact hlat0 ((hs (Observer.new (some 0) none)).mp hcon)

/-- C7: whenever calculate_sunrise_sunset returns a pair, the sunrise hour
angle is the exact negation of the sunset hour angle. -/
theorem c7_sunrise_eq_neg_sunset (o : Observer) (day_of_year : ℤ) (p : ℝ × ℝ)
    (h : o.calculate_sunrise_sunset day_of_year = .ok p) : p.1 = -p.2 := by
  obtain ⟨lat, lon⟩ := o
  cases lat with
  | none => simp [Observer.calculate_sunrise_sunset] at h
  | some observer_latitude =>
    have hred : (match acosE (-(Real.tan observer_latitude *
          Real.tan (SunPosition.solar_declination day_of_year))) with
        | .error e => .error e
        | .ok hour_angle => .ok (-hour_angle, hour_angle)) = Except.ok p := h
    cases hac : acosE (-(Real.tan observer_latitude *
        Real.tan (SunPosition.solar_declination day_of_year))) with
    | error e => rw [hac] at hred; simp at hred
    | ok hour_angle =>
      rw [hac] at hred
      simp only [Except.ok.injEq] at hred
      rw [← hred]

/-- Witness for C7: at latitude 0 degrees on day 81 the computation
returns the pair (-pi/2, pi/2), whose first component is the negation of
the second. -/
theorem c7_sunrise_eq_neg_sunset_witness :
    (Observer.new (some 0) none).calculate_sunrise_sunset 81 =
      .ok (-(Real.pi / 2), Real.pi / 2) ∧
    ((-(Real.pi / 2), Real.pi / 2) : ℝ × ℝ).1 =
      -((-(Real.pi / 2), Real.pi / 2) : ℝ × ℝ).2 :=
  ⟨sunrise_sunset_lat0_day81,
   c7_sunrise_eq_neg_sunset (Observer.new (some 0) none) 81
     (-(Real.pi / 2), Real.pi / 2) sunrise_sunset_lat0_day81⟩

/-- C3 counterexample: at climate "INVALID" and altitude 1000 the code does
raise, but the raised error is ValueError("Invalid climate type"), whose
message does not mention TROPICAL (nor, being a fixed 20-character string,
any other climate option), refuting the part of the claim that says the
message enumerates the valid climate options. -/
theorem c3_invalid_climate_message_counterexample :
    HottelModel.calculate_transmittance_components ("INVALID") 1000 =
      .error (.valueError ("Invalid climate type")) ∧
    ¬ mentions ("TROPICAL") ("Invalid climate type") := by
  constructor
  · rfl
  · unfold mentions
    decide

/-- C3 amended: calculate_transmittance_components raises an error if and
only if the uppercased climate string is not one of the four recognized
categories, and the error it raises is always ValueError with the fixed
message "Invalid climate type" (which does not enumerate the options). -/
theorem c3_invalid_climate_iff_amended (climate_type : String) (observer_altitude : ℝ) :
    ((∃ e, HottelModel.calculate_transmittance_components climate_type observer_altitude
        = .error e) ↔ pyUpper climate_type ∉ VALID_CLIMATE_TYPES) ∧
    (∀ e, HottelModel.calculate_transmittance_components climate_type observer_altitude
        = .error e → e = .valueError ("Invalid climate type")) := by
  unfold HottelModel.calculate_transmittance_components
  cases hl : HottelModel.CLIMATE_CONSTANTS.lookup (pyUpper climate_type) with
  | none =>
    have hmem : pyUpper climate_type ∉ VALID_CLIMATE_TYPES :=
      (climate_lookup_eq_none_iff (pyUpper climate_type)).mp hl
    constructor
    · simp [hmem]
    · intro e he
      simp only [Except.error.injEq] at he
      exact he.symm
  | some p =>
    have hmem : pyUpper climate_type ∈ VALID_CLIMATE_TYPES := by
      by_contra hc
      rw [← climate_lookup_eq_none_iff] at hc
      rw [hc] at hl
      exact Option.noConfusion hl
    obtain ⟨r0, r1, rk⟩ := p
    constructor
    · simp [hmem]
    · intro e he
      simp at he

/-- Witness for C3 amended at the concrete climate string "xyz" and
altitude 5: the uppercased string is not a recognized category and the
computation does raise. -/
theorem c3_invalid_climate_iff_amended_witness :
    pyUpper ("xyz") ∉ VALID_CLIMATE_TYPES ∧
    (∃ e, HottelModel.calculate_transmittance_components ("xyz") 5 = Except.error e) :=
  ⟨by decide, (c3_invalid_climate_iff_amended ("xyz") 5).1.mpr (by decide)⟩

/-- C5: for an AtmosphericTransmission successfully constructed from a
climate, altitude and latitude, calculate_transmittance returns a0 when
the absolute cosine of the zenith angle is below 1e-8, and otherwise
a0 + a1 * exp(-k / cos(zenith_angle)); the cached (a0, a1, k) are exactly
the transmittance components computed at construction. -/
theorem c5_calculate_transmittance_formula (climate_type : String)
    (observer_altitude observer_latitude : ℝ) (atm : AtmosphericTransmission)
    (hinit : AtmosphericTransmission.init climate_type observer_altitude
      observer_latitude = .ok atm) (day_of_year : ℤ) (solar_time : ℝ) :
    HottelModel.calculate_transmittance_components climate_type observer_altitude =
      .ok (atm.a0, atm.a1, atm.k) ∧
    atm.calculate_transmittance day_of_year solar_time =
      .ok (if |Real.cos (Real.arccos (zenith_cos_arg (radians observer_latitude)
              day_of_year solar_time))| < 1e-8
           then atm.a0
           else atm.a0 + atm.a1 * Real.exp (-atm.k /
             Real.cos (Real.arccos (zenith_cos_arg (radians observer_latitude)
               day_of_year solar_time)))) := by
  unfold AtmosphericTransmission.init at hinit
  cases hc : HottelModel.calculate_transmittance_components climate_type
      observer_altitude with
  | error e => rw [hc] at hinit; simp at hinit
  | ok tr =>
    obtain ⟨a0v, a1v, kv⟩ := tr
    rw [hc] at hinit
    simp only [Except.ok.injEq] at hinit
    subst hinit
    refine ⟨rfl, ?_⟩
    unfold AtmosphericTransmission.calculate_transmittance
    have hz : (Observer.new (some observer_latitude) none).calculate_zenith_angle
        day_of_year solar_time = .ok (Real.arccos (zenith_cos_arg
          (radians observer_latitude) day_of_year solar_time)) :=
      calculate_zenith_angle_of_latitude _ (radians observer_latitude) rfl
        day_of_year solar_time
    rw [hz]

/-- Witness for C5: the TROPICAL / 26 m / latitude 0 construction succeeds
and the theorem applies to it at day 81, solar time 43200. -/
theorem c5_calculate_transmittance_formula_witness :
    AtmosphericTransmission.init ("TROPICAL") 26 0 = .ok atmTropical ∧
    (HottelModel.calculate_transmittance_components ("TROPICAL") 26 =
      .ok (atmTropical.a0, atmTropical.a1, atmTropical.k) ∧
    atmTropical.calculate_transmittance 81 43200 =
      .ok (if |Real.cos (Real.arccos (zenith_cos_arg (radians 0) 81 43200))| < 1e-8
           then atmTropical.a0
           else atmTropical.a0 + atmTropical.a1 * Real.exp (-atmTropical.k /
             Real.cos (Real.arccos (zenith_cos_arg (radians 0) 81 43200))))) :=
  ⟨rfl, c5_calculate_transmittance_formula ("TROPICAL") 26 0 atmTropical rfl 81 43200⟩

/-- C4: at hour angle pi, panel orientation 0, day 81 (where the incidence
cosine is -1 < 0, a sun-behind-panel input), the irradiance component of
the TROPICAL, 26 m, latitude-0 calculator does not return the hard-zeroed
value 0 demanded by the claim: it raises AttributeError instead, because
numerical_integration.py calls Observer._validate_latitude, a method that
observer.py does not define. -/
theorem c4_irradiance_component_attribute_error :
    icTropical.calculate_irradiance_component Real.pi 0 81 =
      .error (.attributeError ("_validate_latitude")) ∧
    cos_theta (SunPosition.solar_declination 81) (radians 0) 0 Real.pi < 0 := by
  constructor
  · rfl
  · have hd : SunPosition.solar_declination 81 = 0 := by
      unfold SunPosition.solar_declination
      have h365 : 2 * Real.pi * (284 + ((81 : ℤ) : ℝ)) / 365 = 2 * Real.pi := by
        push_cast
        ring
      rw [h365, Real.sin_two_pi, zero_mul]
    have hr0 : radians 0 = 0 := by unfold radians; ring
    rw [hd, hr0]
    unfold cos_theta
    simp [Real.cos_pi]

/-- C1: the calculator built from the recognized climate TROPICAL at
altitude 26 m with provided latitude 0 does not return a float from
calculate_direct_irradiation(45, 81): every sampled irradiance component
raises AttributeError (numerical_integration.py calls
Observer._validate_latitude, which observer.py does not define), and the
sample list over [sunrise, sunset) = [-pi/2, pi/2) at step 0.01 is
nonempty, so the exception propagates out of the integration loop. -/
theorem c1_calculate_direct_irradiation_attribute_error :
    IrradiationCalculator.init ("TROPICAL") 26 0 = .ok icTropical ∧
    icTropical.calculate_direct_irradiation 45 81 =
      .error (.attributeError ("_validate_latitude")) := by
  constructor
  · rfl
  · have hss : icTropical.observer.calculate_sunrise_sunset 81 =
        .ok (-(Real.pi / 2), Real.pi / 2) := sunrise_sunset_lat0_day81
    have hne : arange (-(Real.pi / 2)) (Real.pi / 2) 0.01 ≠ [] := by
      unfold arange
      have hpi : Real.pi / 2 - -(Real.pi / 2) = Real.pi := by ring
      rw [hpi]
      have hpos : (0 : ℝ) < Real.pi / 0.01 := by positivity
      have hceil : 0 < ⌈Real.pi / 0.01⌉ := Int.ceil_pos.mpr hpos
      intro hcon
      rw [List.map_eq_nil_iff, List.range_eq_nil] at hcon
      omega
    have hmap : mapExcept
        (fun hour_angle =>
          icTropical.calculate_irradiance_component hour_angle (radians 45) 81)
        (arange (-(Real.pi / 2)) (Real.pi / 2) 0.01) =
        .error (.attributeError ("_validate_latitude")) :=
      mapExcept_error_of_all _ _ (fun _ => rfl) _ hne
    unfold IrradiationCalculator.calculate_direct_irradiation
    simp only [hss]
    rw [hmap]

/-- C2: at provided latitude 70 degrees on day 172 (northern polar day,
where tan(latitude) * tan(declination) > 1 as the second conjunct
certifies), calculate_sunrise_sunset does not clamp or branch: the acos
argument is below -1 and the math domain error ValueError propagates,
instead of the full 24-hour window the claim (and the test suite of the
repository) demands. -/
theorem c2_sunrise_sunset_polar_day_domain_error :
    (Observer.new (some 70) none).calculate_sunrise_sunset 172 =
      .error (.valueError ("math domain error")) ∧
    1 < Real.tan (radians 70) * Real.tan (SunPosition.solar_declination 172) := by
  have hδeq : SunPosition.solar_declination 172 =
      Real.cos (Real.pi / 730) * radians 23.45 := by
    unfold SunPosition.solar_declination
    have h1 : 2 * Real.pi * (284 + ((172 : ℤ) : ℝ)) / 365 =
        Real.pi / 2 - Real.pi / 730 + 2 * Real.pi := by
      push_cast
      ring
    rw [h1, Real.sin_add_two_pi, Real.sin_pi_div_two_sub]
  have hy : Real.pi / 730 = 2 * (Real.pi / 1460) := by ring
  have hslt : Real.sin (Real.pi / 1460) ≤ Real.pi / 1460 :=
    le_of_lt (Real.sin_lt (by positivity))
  have hs0 : 0 ≤ Real.sin (Real.pi / 1460) :=
    Real.sin_nonneg_of_nonneg_of_le_pi (by positivity) (by linarith [Real.pi_pos])
  have hsq : Real.sin (Real.pi / 1460) ^ 2 ≤ (Real.pi / 1460) ^ 2 := by nlinarith
  have hcos_eq : Real.cos (Real.pi / 730) = 1 - 2 * Real.sin (Real.pi / 1460) ^ 2 := by
    rw [hy, Real.cos_two_mul, Real.cos_sq']
    ring
  have hπsq : Real.pi ^ 2 ≤ 16 := by nlinarith [Real.pi_pos, Real.pi_le_four]
  have h2 : (Real.pi / 1460) ^ 2 ≤ 16 / 1460 ^ 2 := by nlinarith [hπsq]
  have hcos_lb : 20 / 23.45 < Real.cos (Real.pi / 730) := by
    rw [hcos_eq]
    nlinarith [hsq, h2]
  have hc_pos : (0 : ℝ) < radians 23.45 := by unfold radians; positivity
  have hδ_gt : Real.pi / 9 < SunPosition.solar_declination 172 := by
    rw [hδeq]
    have hkey : Real.pi / 9 = (20 / 23.45) * radians 23.45 := by unfold radians; ring
    rw [hkey]
    exact mul_lt_mul_of_pos_right hcos_lb hc_pos
  have hδ_lt : SunPosition.solar_declination 172 < Real.pi / 2 := by
    rw [hδeq]
    have h1 : Real.cos (Real.pi / 730) * radians 23.45 ≤ 1 * radians 23.45 :=
      mul_le_mul_of_nonneg_right (Real.cos_le_one _) (le_of_lt hc_pos)
    unfold radians at h1 ⊢
    nlinarith [Real.pi_pos]
  have h9mem : Real.pi / 9 ∈ Set.Ioo (-(Real.pi / 2)) (Real.pi / 2) :=
    Set.mem_Ioo.mpr ⟨by linarith [Real.pi_pos], by linarith [Real.pi_pos]⟩
  have hδmem : SunPosition.solar_declination 172 ∈
      Set.Ioo (-(Real.pi / 2)) (Real.pi / 2) :=
    Set.mem_Ioo.mpr ⟨by linarith [Real.pi_pos], hδ_lt⟩
  have htan_lt : Real.tan (Real.pi / 9) < Real.tan (SunPosition.solar_declination 172) :=
    Real.strictMonoOn_tan h9mem hδmem hδ_gt
  have htan9 : 0 < Real.tan (Real.pi / 9) :=
    Real.tan_pos_of_pos_of_lt_pi_div_two (by positivity) (by linarith [Real.pi_pos])
  have hφ : radians 70 = Real.pi / 2 - Real.pi / 9 := by unfold radians; ring
  have hprod : 1 < Real.tan (radians 70) * Real.tan (SunPosition.solar_declination 172) := by
    rw [hφ, Real.tan_pi_div_two_sub, inv_mul_eq_div]
    exact (one_lt_div htan9).mpr htan_lt
  refine ⟨?_, hprod⟩
  have hred : (Observer.new (some 70) none).calculate_sunrise_sunset 172 =
      (match acosE (-(Real.tan (radians 70) *
          Real.tan (SunPosition.solar_declination 172))) with
       | Except.error e => (Except.error e : Except PyError (ℝ × ℝ))
       | Except.ok hour_angle => Except.ok (-hour_angle, hour_angle)) := rfl
  have hac : acosE (-(Real.tan (radians 70) *
      Real.tan (SunPosition.solar_declination 172))) =
      .error (.valueError ("math domain error")) := by
    unfold acosE
    rw [if_neg]
    intro habs
    rw [abs_le] at habs
    linarith [habs.1]
  rw [hred, hac]
